import Mathlib

/-!
Shallow embedding of `src/main.py` (BFF Middleware v24), a FastAPI gateway:
a global authentication middleware (`verify_internal_key`), a legacy per-route
gate (`require_key`), stub integration adapters (`post_to_ocoya`,
`systeme_upsert_contact`), an OAuth callback, and 23 `/gpt/{agent}` handlers.

Python values in the generic `data` bag are modelled by a JSON-like `Value`
type; Python dicts are association lists with first-match lookup
(`List.lookup`), which agrees with Python dict semantics since no duplicate
keys arise in this program.  A string read from `os.getenv(name, "")` is
"unset" exactly when it is the empty string (Python truthiness).  An HTTP
header that may be absent is `Option String` (`none` = absent, `some ""` =
present with empty value), matching the `request.headers.get` of Starlette.
-/

set_option autoImplicit false

namespace BFF

/-- JSON-like values carried in the `data : Dict[str, Any]` bag of a task. -/
inductive Value where
  | null : Value
  | bool : Bool → Value
  | num : Int → Value
  | str : String → Value
  | arr : List Value → Value
  | obj : List (String × Value) → Value

/-- Serialization of an `Optional[str]` field into a JSON value, as in
the pydantic `.dict()` method (a Python `None` becomes JSON null). -/
def optStrVal : Option String → Value
  | none => Value.null
  | some s => Value.str s

/-- An HTTP error raised with the FastAPI `HTTPException(status_code, detail)`. -/
structure HTTPExc where
  status : Nat
  detail : String

/-- A JSON HTTP response: a status code and a JSON-object body, as produced
by `JSONResponse` or by the dict a handler returns. -/
inductive HttpResponse where
  | json : Nat → List (String × Value) → HttpResponse

/-- The fixed bypass list of `verify_internal_key` (main.py line 66). -/
def bypassPaths : List String := ["/docs", "/openapi.json", "/health", "/auth/callback"]

/-- Python `key != secret` where `key` is an `Optional[str]` read from the
headers: `None` is different from every string, including the empty one. -/
def pyStrNe : Option String → String → Bool
  | none, _ => true
  | some s, t => s != t

/-- The `verify_internal_key` HTTP middleware (main.py lines 63-75), with the
process environment (`ALLOW_UNAUTH`, `BFF_MIDDLEWARE_KEY`) passed explicitly.
`next` stands for `call_next`, i.e. routing plus the route handler; the
middleware either forwards to it or answers 403 without ever invoking it. -/
def runMiddleware (allowUnauth : Bool) (secret : String) (path : String)
    (header : Option String) (next : Unit → HttpResponse) : HttpResponse :=
  if path ∈ bypassPaths then next ()
  else if allowUnauth then next ()
  else if pyStrNe header secret then
    HttpResponse.json 403 [("detail", Value.str "Unauthorized - Invalid BFF key")]
  else next ()

/-- The legacy per-route gate `require_key` (main.py lines 32-35): it checks
only when enforcement is on AND a key is configured (a non-empty string, by
Python truthiness), and then raises 401 on mismatch. -/
def require_key (allowUnauth : Bool) (secret : String) (x_bff_key : Option String) :
    Except HTTPExc Unit :=
  if !allowUnauth && (secret != "") then
    if pyStrNe x_bff_key secret then
      Except.error ⟨401, "Unauthorized - Invalid BFF key"⟩
    else Except.ok ()
  else Except.ok ()

/-- Body returned by the `/health` handler (main.py lines 78-80). -/
def health : List (String × Value) :=
  [("status", Value.str "OK"), ("service", Value.str "BFF Middleware v24")]

/-- The full `GET /health` pipeline: middleware composed with the handler. -/
def handleHealth (allowUnauth : Bool) (secret : String) (header : Option String) :
    HttpResponse :=
  runMiddleware allowUnauth secret "/health" header (fun _ => HttpResponse.json 200 health)

/-- The outbound form POST that `auth_callback` sends to the Google token
endpoint (main.py lines 89-99); producing one is making the outbound call. -/
structure TokenRequest where
  code : String
  client_id : String
  client_secret : String
  redirect_uri : String
  grant_type : String

/-- Python truthiness test `not code` for an `Optional[str]`: true when the
parameter is absent or the empty string. -/
def pyOptStrFalsy : Option String → Bool
  | none => true
  | some s => s == ""

/-- The `auth_callback` handler (main.py lines 83-101) up to the outbound
call: a missing or empty `code` raises 400 before any request is built; the
provider reply to an issued `TokenRequest` is outside this program. -/
def auth_callback (clientId clientSecret redirectUri : String) (code : Option String) :
    Except HTTPExc TokenRequest :=
  if pyOptStrFalsy code then Except.error ⟨400, "Missing authorization code"⟩
  else Except.ok ⟨code.getD "", clientId, clientSecret, redirectUri, "authorization_code"⟩

/-- The Ocoya adapter `post_to_ocoya` (main.py lines 104-113).  The real API
call is commented out in the source; with a key set it returns the stub. -/
def post_to_ocoya (ocoyaKey : String) (payload : Value) : List (String × Value) :=
  if ocoyaKey = "" then
    [("status", Value.str "skipped"), ("reason", Value.str "OCOYA_API_KEY not set"),
     ("echo", payload)]
  else
    [("status", Value.str "ok"), ("posted_via", Value.str "ocoya_stub"), ("echo", payload)]

/-- The `SystemeContact` pydantic model (main.py lines 49-54).  The `email`
field keeps the raw value handed to the constructor; the pydantic string
coercion is outside the embedding. -/
structure SystemeContact where
  email : Value
  first_name : Option String
  last_name : Option String
  tags : List String
  campaign_id : Option String

/-- Serialization `c.dict()` of a `SystemeContact`. -/
def SystemeContact.toDict (c : SystemeContact) : List (String × Value) :=
  [("email", c.email), ("first_name", optStrVal c.first_name),
   ("last_name", optStrVal c.last_name), ("tags", Value.arr (c.tags.map Value.str)),
   ("campaign_id", optStrVal c.campaign_id)]

/-- The Systeme adapter `systeme_upsert_contact` (main.py lines 122-126). The
real API call is a comment in the source; with a key set it returns the stub. -/
def systeme_upsert_contact (systemeKey : String) (c : SystemeContact) :
    List (String × Value) :=
  if systemeKey = "" then
    [("status", Value.str "skipped"), ("reason", Value.str "SYSTEME_API_KEY not set"),
     ("contact", Value.obj c.toDict)]
  else
    [("status", Value.str "ok"), ("contact_stub", Value.obj c.toDict)]

/-- The `TaskPayload` pydantic model (main.py lines 56-60). -/
structure TaskPayload where
  brand : String
  partner : Option String
  intent : String
  data : List (String × Value)

/-- Serialization `task.dict()` of a `TaskPayload`. -/
def TaskPayload.toDict (t : TaskPayload) : List (String × Value) :=
  [("brand", Value.str t.brand), ("partner", optStrVal t.partner),
   ("intent", Value.str t.intent), ("data", Value.obj t.data)]

/-- The `ok` response helper (main.py lines 164-168): the uniform envelope
`{"agent": name, "received": task.dict()}` updated with `extra`.  The extra
keys used in the source (`next`, `hint`) never collide with the envelope
keys, so `dict.update` is list append here. -/
def ok (name : String) (payload : TaskPayload) (extra : List (String × Value)) :
    List (String × Value) :=
  [("agent", Value.str name), ("received", Value.obj payload.toDict)] ++ extra

/-- Python exceptions that subscripting a JSON value by a string key can
raise: `KeyError` on a dict missing the key, `TypeError` on a non-dict. -/
inductive PyErr where
  | keyError : String → PyErr
  | typeError : PyErr

/-- Python `v["k"]` for a JSON value `v` and string key `k`. -/
def subscript : Value → String → Except PyErr Value
  | Value.obj m, k =>
    match m.lookup k with
    | some v => Except.ok v
    | none => Except.error (PyErr.keyError k)
  | _, _ => Except.error PyErr.typeError

/-- One invocation of an Integration Adapter, recording its input. -/
inductive AdapterCall where
  | crm : SystemeContact → AdapterCall
  | social : Value → AdapterCall

/-- The adapter credentials drawn from the process environment. -/
structure Env where
  ocoyaKey : String
  systemeKey : String

/-- Handler for `POST /gpt/cris` after the gate (main.py lines 171-174). -/
def gpt_cris (task : TaskPayload) : List (String × Value) :=
  ok "CRIS" task [("next", Value.str "route to appropriate agent based on task.intent")]

/-- Handler for `POST /gpt/ava` after the gate (main.py lines 176-179). -/
def gpt_ava (task : TaskPayload) : List (String × Value) :=
  ok "AVA" task []

/-- Handler for `POST /gpt/vinceassist` after the gate (main.py lines 181-184). -/
def gpt_vinceassist (task : TaskPayload) : List (String × Value) :=
  ok "VINCEASSIST" task []

/-- Handler for `POST /gpt/leadai` after the gate (main.py lines 186-191):
if `"lead" in task.data`, await `systeme_upsert_contact` on a contact built
from `task.data["lead"]["email"]` with the fixed tag, discarding the result;
evaluating the subscripts may raise.  The returned list records the adapter
calls made. -/
def gpt_leadai (env : Env) (task : TaskPayload) :
    Except PyErr (List AdapterCall × List (String × Value)) :=
  match task.data.lookup "lead" with
  | some leadVal =>
    match subscript leadVal "email" with
    | Except.ok email =>
      let c : SystemeContact := ⟨email, none, none, ["lead_generated"], none⟩
      let _ := systeme_upsert_contact env.systemeKey c
      Except.ok ([AdapterCall.crm c], ok "LEADAI" task [])
    | Except.error e => Except.error e
  | none => Except.ok ([], ok "LEADAI" task [])

/-- Handler for `POST /gpt/convertai` after the gate (main.py lines 193-198):
if `"post" in task.data`, await `post_to_ocoya(task.data["post"])`, discarding
the result. -/
def gpt_convertai (env : Env) (task : TaskPayload) :
    Except PyErr (List AdapterCall × List (String × Value)) :=
  match task.data.lookup "post" with
  | some postVal =>
    let _ := post_to_ocoya env.ocoyaKey postVal
    Except.ok ([AdapterCall.social postVal], ok "CONVERTAI" task [])
  | none => Except.ok ([], ok "CONVERTAI" task [])

/-- Handler for `POST /gpt/demandai` after the gate (main.py lines 200-203). -/
def gpt_demandai (task : TaskPayload) : List (String × Value) :=
  ok "DEMANDAI" task []

/-- Handler for `POST /gpt/scheduleai` after the gate (main.py lines 205-208). -/
def gpt_scheduleai (task : TaskPayload) : List (String × Value) :=
  ok "SCHEDULEAI" task []

/-- Handler for `POST /gpt/verifyai` after the gate (main.py lines 210-213). -/
def gpt_verifyai (task : TaskPayload) : List (String × Value) :=
  ok "VERIFYAI" task []

/-- Handler for `POST /gpt/fundingai` after the gate (main.py lines 215-218). -/
def gpt_fundingai (task : TaskPayload) : List (String × Value) :=
  ok "FUNDINGAI" task []

/-- Handler for `POST /gpt/docbot` after the gate (main.py lines 220-223). -/
def gpt_docbot (task : TaskPayload) : List (String × Value) :=
  ok "DOCBOT" task []

/-- Handler for `POST /gpt/revenueai` after the gate (main.py lines 225-228). -/
def gpt_revenueai (task : TaskPayload) : List (String × Value) :=
  ok "REVENUEAI" task [("hint", Value.str "includes stock-window content cadence & KPI rollups")]

/-- Handler for `POST /gpt/ytscribe` after the gate (main.py lines 230-233). -/
def gpt_ytscribe (task : TaskPayload) : List (String × Value) :=
  ok "YTSCRIBE" task []

/-- Handler for `POST /gpt/qa` after the gate (main.py lines 235-238). -/
def gpt_qa (task : TaskPayload) : List (String × Value) :=
  ok "QA" task []

/-- Handler for `POST /gpt/compliance` after the gate (main.py lines 240-243). -/
def gpt_compliance (task : TaskPayload) : List (String × Value) :=
  ok "COMPLIANCE" task []

/-- Handler for `POST /gpt/adsai` after the gate (main.py lines 245-248). -/
def gpt_adsai (task : TaskPayload) : List (String × Value) :=
  ok "ADSAI" task []

/-- Handler for `POST /gpt/opsai` after the gate (main.py lines 250-253). -/
def gpt_opsai (task : TaskPayload) : List (String × Value) :=
  ok "OPSAI" task []

/-- Handler for `POST /gpt/csai` after the gate (main.py lines 255-258). -/
def gpt_csai (task : TaskPayload) : List (String × Value) :=
  ok "CSAI" task []

/-- Handler for `POST /gpt/pricingai` after the gate (main.py lines 260-263). -/
def gpt_pricingai (task : TaskPayload) : List (String × Value) :=
  ok "PRICINGAI" task []

/-- Handler for `POST /gpt/partnerai` after the gate (main.py lines 265-268). -/
def gpt_partnerai (task : TaskPayload) : List (String × Value) :=
  ok "PARTNERAI" task []

/-- Handler for `POST /gpt/hiringai` after the gate (main.py lines 270-273). -/
def gpt_hiringai (task : TaskPayload) : List (String × Value) :=
  ok "HIRINGAI" task []

/-- Handler for `POST /gpt/financeai` after the gate (main.py lines 275-278). -/
def gpt_financeai (task : TaskPayload) : List (String × Value) :=
  ok "FINANCEAI" task []

/-- Handler for `POST /gpt/auditai` after the gate (main.py lines 280-283). -/
def gpt_auditai (task : TaskPayload) : List (String × Value) :=
  ok "AUDITAI" task []

/-- Handler for `POST /gpt/labsai` after the gate (main.py lines 285-288). -/
def gpt_labsai (task : TaskPayload) : List (String × Value) :=
  ok "LABSAI" task []

/-- The closed set of `/gpt/{agent}` identities enumerated in the source. -/
inductive Agent where
  | cris | ava | vinceassist | leadai | convertai | demandai | scheduleai
  | verifyai | fundingai | docbot | revenueai | ytscribe | qa | compliance
  | adsai | opsai | csai | pricingai | partnerai | hiringai | financeai
  | auditai | labsai
  deriving DecidableEq

/-- The fixed dispatch table over the 23 `/gpt/{agent}` handlers: each agent
maps to the body of its handler; pure handlers make no adapter call. -/
def dispatch (env : Env) (a : Agent) (task : TaskPayload) :
    Except PyErr (List AdapterCall × List (String × Value)) :=
  match a with
  | Agent.cris => Except.ok ([], gpt_cris task)
  | Agent.ava => Except.ok ([], gpt_ava task)
  | Agent.vinceassist => Except.ok ([], gpt_vinceassist task)
  | Agent.leadai => gpt_leadai env task
  | Agent.convertai => gpt_convertai env task
  | Agent.demandai => Except.ok ([], gpt_demandai task)
  | Agent.scheduleai => Except.ok ([], gpt_scheduleai task)
  | Agent.verifyai => Except.ok ([], gpt_verifyai task)
  | Agent.fundingai => Except.ok ([], gpt_fundingai task)
  | Agent.docbot => Except.ok ([], gpt_docbot task)
  | Agent.revenueai => Except.ok ([], gpt_revenueai task)
  | Agent.ytscribe => Except.ok ([], gpt_ytscribe task)
  | Agent.qa => Except.ok ([], gpt_qa task)
  | Agent.compliance => Except.ok ([], gpt_compliance task)
  | Agent.adsai => Except.ok ([], gpt_adsai task)
  | Agent.opsai => Except.ok ([], gpt_opsai task)
  | Agent.csai => Except.ok ([], gpt_csai task)
  | Agent.pricingai => Except.ok ([], gpt_pricingai task)
  | Agent.partnerai => Except.ok ([], gpt_partnerai task)
  | Agent.hiringai => Except.ok ([], gpt_hiringai task)
  | Agent.financeai => Except.ok ([], gpt_financeai task)
  | Agent.auditai => Except.ok ([], gpt_auditai task)
  | Agent.labsai => Except.ok ([], gpt_labsai task)

/-- The literal agent name each handler passes to `ok`. -/
def agentName : Agent → String
  | Agent.cris => "CRIS"
  | Agent.ava => "AVA"
  | Agent.vinceassist => "VINCEASSIST"
  | Agent.leadai => "LEADAI"
  | Agent.convertai => "CONVERTAI"
  | Agent.demandai => "DEMANDAI"
  | Agent.scheduleai => "SCHEDULEAI"
  | Agent.verifyai => "VERIFYAI"
  | Agent.fundingai => "FUNDINGAI"
  | Agent.docbot => "DOCBOT"
  | Agent.revenueai => "REVENUEAI"
  | Agent.ytscribe => "YTSCRIBE"
  | Agent.qa => "QA"
  | Agent.compliance => "COMPLIANCE"
  | Agent.adsai => "ADSAI"
  | Agent.opsai => "OPSAI"
  | Agent.csai => "CSAI"
  | Agent.pricingai => "PRICINGAI"
  | Agent.partnerai => "PARTNERAI"
  | Agent.hiringai => "HIRINGAI"
  | Agent.financeai => "FINANCEAI"
  | Agent.auditai => "AUDITAI"
  | Agent.labsai => "LABSAI"

/-- The literal extra hints each handler passes to `ok` (empty for most). -/
def agentExtra : Agent → List (String × Value)
  | Agent.cris => [("next", Value.str "route to appropriate agent based on task.intent")]
  | Agent.revenueai => [("hint", Value.str "includes stock-window content cadence & KPI rollups")]
  | _ => []

/-- Characterization used to state the dispatch side-effect rule: the email
value inside a `lead` entry of the data bag, when the entry is a mapping
carrying an `email` key. -/
def leadEmail (task : TaskPayload) : Option Value :=
  match task.data.lookup "lead" with
  | some (Value.obj m) => m.lookup "email"
  | _ => none

end BFF

namespace BFF

/-- C1: for every request to a route not on the bypass list, if enforcement
is on (ALLOW_UNAUTH false) and the x-bff-key header does not exactly equal
the configured secret (including an absent header), the middleware answers
403 with the fixed message, independently of `next` — so no handler and no
adapter is ever reached, regardless of route or payload. -/
theorem C1_middleware_rejects_mismatch (secret path : String) (header : Option String)
    (next : Unit → HttpResponse) (hp : path ∉ bypassPaths) (hh : header ≠ some secret) :
    runMiddleware false secret path header next =
      HttpResponse.json 403 [("detail", Value.str "Unauthorized - Invalid BFF key")] := by
  have hne : pyStrNe header secret = true := by
    cases header with
    | none => rfl
    | some s =>
      simp only [pyStrNe, bne_iff_ne, ne_eq]
      intro hs
      exact hh (by rw [hs])
  simp [runMiddleware, hp, hne]

/-- Witness for C1 at a concrete gated request with a wrong header value. -/
theorem C1_witness :
    ("/gpt/ava" ∉ bypassPaths) ∧ ((some "wrong" : Option String) ≠ some "secret123") ∧
    runMiddleware false "secret123" "/gpt/ava" (some "wrong")
        (fun _ => HttpResponse.json 200 []) =
      HttpResponse.json 403 [("detail", Value.str "Unauthorized - Invalid BFF key")] :=
  ⟨by decide, by decide,
   C1_middleware_rejects_mismatch "secret123" "/gpt/ava" (some "wrong")
     (fun _ => HttpResponse.json 200 []) (by decide) (by decide)⟩

/-- C2 counterexample: with enforcement on and an empty configured secret,
the middleware admits a request that carries an empty-string x-bff-key header
(the handler is reached), and the per-route `require_key` helper admits a
request with no header at all — so the gate does not degrade to
"always reject". -/
theorem C2_counterexample_empty_secret :
    runMiddleware false "" "/gpt/ava" (some "")
        (fun _ => HttpResponse.json 200 [("reached", Value.str "handler")]) =
      HttpResponse.json 200 [("reached", Value.str "handler")] ∧
    require_key false "" none = Except.ok () := by
  constructor
  · rfl
  · rfl

/-- C2 (amended): with enforcement on and an empty configured secret, the
middleware admits exactly the requests whose header is the empty string and
rejects all others (absent or non-empty header), while `require_key` admits
every request unconditionally. -/
theorem C2_amended_empty_secret_gate (path : String) (header : Option String)
    (next : Unit → HttpResponse) (hp : path ∉ bypassPaths) :
    (header = some "" → runMiddleware false "" path header next = next ()) ∧
    (header ≠ some "" → runMiddleware false "" path header next =
      HttpResponse.json 403 [("detail", Value.str "Unauthorized - Invalid BFF key")]) ∧
    require_key false "" header = Except.ok () := by
  refine ⟨?_, ?_, ?_⟩
  · intro h
    subst h
    simp [runMiddleware, hp, pyStrNe]
  · intro h
    have hne : pyStrNe header "" = true := by
      cases header with
      | none => rfl
      | some s =>
        simp only [pyStrNe, bne_iff_ne, ne_eq]
        intro hs
        exact h (by rw [hs])
    simp [runMiddleware, hp, hne]
  · simp [require_key]

/-- Witness for the amended C2 at a concrete gated request. -/
theorem C2_witness :
    ("/gpt/ava" ∉ bypassPaths) ∧ require_key false "" (some "anything") = Except.ok () :=
  ⟨by decide,
   (C2_amended_empty_secret_gate "/gpt/ava" (some "anything")
     (fun _ => HttpResponse.json 200 []) (by decide)).2.2⟩

/-- C3: every request to a bypassed route is forwarded by the middleware
regardless of enforcement, secret and header; in particular GET /health with
no header and enforcement on returns 200 with the health body. -/
theorem C3_bypass_admits (path : String) (hp : path ∈ bypassPaths)
    (allowUnauth : Bool) (secret : String) (header : Option String)
    (next : Unit → HttpResponse) :
    runMiddleware allowUnauth secret path header next = next () ∧
    handleHealth false secret none = HttpResponse.json 200 health := by
  constructor
  · simp [runMiddleware, hp]
  · rfl

/-- Witness for C3 at GET /health with no header and enforcement on. -/
theorem C3_witness :
    ("/health" ∈ bypassPaths) ∧
    runMiddleware false "secret123" "/health" none
        (fun _ => HttpResponse.json 200 health) = HttpResponse.json 200 health ∧
    handleHealth false "secret123" none = HttpResponse.json 200 health :=
  ⟨by decide,
   (C3_bypass_admits "/health" (by decide) false "secret123" none
     (fun _ => HttpResponse.json 200 health)).1,
   (C3_bypass_admits "/health" (by decide) false "secret123" none
     (fun _ => HttpResponse.json 200 health)).2⟩

/-- C4: among all agent handlers only leadai and convertai invoke an
Integration Adapter; leadai invokes the CRM adapter exactly once with the
email from the lead entry and the fixed tag, precisely when the data bag has
a lead mapping carrying an email key; convertai invokes the social adapter
exactly once with the post entry verbatim, precisely when the data bag has a
post entry; every other agent makes no adapter call. -/
theorem C4_dispatch_side_effects (env : Env) (task : TaskPayload) :
    (∀ e, leadEmail task = some e →
      gpt_leadai env task =
        Except.ok ([AdapterCall.crm ⟨e, none, none, ["lead_generated"], none⟩],
          ok "LEADAI" task [])) ∧
    (leadEmail task = none →
      ∀ calls resp, gpt_leadai env task = Except.ok (calls, resp) → calls = []) ∧
    (∀ p, task.data.lookup "post" = some p →
      gpt_convertai env task = Except.ok ([AdapterCall.social p], ok "CONVERTAI" task [])) ∧
    (task.data.lookup "post" = none →
      gpt_convertai env task = Except.ok ([], ok "CONVERTAI" task [])) ∧
    (∀ a : Agent, a ≠ Agent.leadai → a ≠ Agent.convertai →
      ∀ calls resp, dispatch env a task = Except.ok (calls, resp) → calls = []) := by
  refine ⟨?_, ?_, ?_, ?_, ?_⟩
  · intro e he
    rcases hl : task.data.lookup "lead" with _ | v
    · simp [leadEmail, hl] at he
    · cases v with
      | obj m =>
        have hm : m.lookup "email" = some e := by simpa [leadEmail, hl] using he
        simp [gpt_leadai, hl, subscript, hm]
      | null => simp [leadEmail, hl] at he
      | bool b => simp [leadEmail, hl] at he
      | num n => simp [leadEmail, hl] at he
      | str s => simp [leadEmail, hl] at he
      | arr l => simp [leadEmail, hl] at he
  · intro hn calls resp h
    rcases hl : task.data.lookup "lead" with _ | v
    · simp [gpt_leadai, hl] at h
      exact h.1
    · cases v with
      | obj m =>
        have hm : m.lookup "email" = none := by simpa [leadEmail, hl] using hn
        simp [gpt_leadai, hl, subscript, hm] at h
      | null => simp [gpt_leadai, hl, subscript] at h
      | bool b => simp [gpt_leadai, hl, subscript] at h
      | num n => simp [gpt_leadai, hl, subscript] at h
      | str s => simp [gpt_leadai, hl, subscript] at h
      | arr l => simp [gpt_leadai, hl, subscript] at h
  · intro p hp
    simp [gpt_convertai, hp]
  · intro hp
    simp [gpt_convertai, hp]
  · intro a h1 h2 calls resp h
    cases a <;> first
      | exact absurd rfl h1
      | exact absurd rfl h2
      | (simp [dispatch] at h; exact h.1)

/-- Witness for C4: a concrete lead task triggers exactly one CRM call with
the email and the fixed tag, and a concrete post task triggers exactly one
social call with the post value verbatim. -/
theorem C4_witness :
    gpt_leadai ⟨"", ""⟩
        ⟨"bff", none, "lead.capture", [("lead", Value.obj [("email", Value.str "a@b.com")])]⟩ =
      Except.ok
        ([AdapterCall.crm ⟨Value.str "a@b.com", none, none, ["lead_generated"], none⟩],
         ok "LEADAI"
           ⟨"bff", none, "lead.capture", [("lead", Value.obj [("email", Value.str "a@b.com")])]⟩
           []) ∧
    gpt_convertai ⟨"", ""⟩
        ⟨"bff", none, "publish", [("post", Value.obj [("channel", Value.str "linkedin"), ("text", Value.str "hi")])]⟩ =
      Except.ok
        ([AdapterCall.social (Value.obj [("channel", Value.str "linkedin"), ("text", Value.str "hi")])],
         ok "CONVERTAI"
           ⟨"bff", none, "publish", [("post", Value.obj [("channel", Value.str "linkedin"), ("text", Value.str "hi")])]⟩
           []) :=
  ⟨(C4_dispatch_side_effects ⟨"", ""⟩
      ⟨"bff", none, "lead.capture", [("lead", Value.obj [("email", Value.str "a@b.com")])]⟩).1
      (Value.str "a@b.com") rfl,
   (C4_dispatch_side_effects ⟨"", ""⟩
      ⟨"bff", none, "publish", [("post", Value.obj [("channel", Value.str "linkedin"), ("text", Value.str "hi")])]⟩).2.2.1
      (Value.obj [("channel", Value.str "linkedin"), ("text", Value.str "hi")]) rfl⟩

/-- C5: when the adapter credential is unset (the empty string read from the
environment), each adapter returns status exactly "skipped", a reason naming
the missing credential, and a payload echoing its input unchanged: the ocoya
echo field is the input value itself and the systeme contact field is the
serialization of the input contact itself. -/
theorem C5_skipped_echo_law (payload : Value) (c : SystemeContact) :
    (post_to_ocoya "" payload).lookup "status" = some (Value.str "skipped") ∧
    (post_to_ocoya "" payload).lookup "reason" = some (Value.str "OCOYA_API_KEY not set") ∧
    (post_to_ocoya "" payload).lookup "echo" = some payload ∧
    (systeme_upsert_contact "" c).lookup "status" = some (Value.str "skipped") ∧
    (systeme_upsert_contact "" c).lookup "reason" = some (Value.str "SYSTEME_API_KEY not set") ∧
    (systeme_upsert_contact "" c).lookup "contact" = some (Value.obj c.toDict) := by
  refine ⟨?_, ?_, ?_, ?_, ?_, ?_⟩ <;> rfl

/-- C6: for every agent other than leadai and convertai the dispatch result
is a pure deterministic function of the agent and the task: it is the same
under any two environments, makes no adapter call, and equals the uniform
envelope of the fixed agent name, the received task, and its fixed extra
hints. -/
theorem C6_pure_agents (a : Agent) (h1 : a ≠ Agent.leadai) (h2 : a ≠ Agent.convertai)
    (env env2 : Env) (task : TaskPayload) :
    dispatch env a task = dispatch env2 a task ∧
    dispatch env a task = Except.ok ([], ok (agentName a) task (agentExtra a)) := by
  cases a <;> first
    | exact absurd rfl h1
    | exact absurd rfl h2
    | exact ⟨rfl, rfl⟩

/-- Witness for C6 at the ava agent with two different environments. -/
theorem C6_witness :
    (Agent.ava ≠ Agent.leadai) ∧ (Agent.ava ≠ Agent.convertai) ∧
    dispatch ⟨"", ""⟩ Agent.ava ⟨"bff", none, "noop", []⟩ =
      dispatch ⟨"OC", "SY"⟩ Agent.ava ⟨"bff", none, "noop", []⟩ ∧
    dispatch ⟨"", ""⟩ Agent.ava ⟨"bff", none, "noop", []⟩ =
      Except.ok ([], ok (agentName Agent.ava) ⟨"bff", none, "noop", []⟩ (agentExtra Agent.ava)) :=
  ⟨by decide, by decide,
   (C6_pure_agents Agent.ava (by decide) (by decide) ⟨"", ""⟩ ⟨"OC", "SY"⟩
     ⟨"bff", none, "noop", []⟩).1,
   (C6_pure_agents Agent.ava (by decide) (by decide) ⟨"", ""⟩ ⟨"OC", "SY"⟩
     ⟨"bff", none, "noop", []⟩).2⟩

/-- C7: the leadai response is identical whatever the CRM adapter returns —
the handler result is the same under any two environments (so under a
skipped result and under an ok result alike), and every successful response
is exactly the uniform envelope of the agent name and the received task: the
awaited adapter result is never merged into the response. -/
theorem C7_leadai_response_frame (env1 env2 : Env) (task : TaskPayload) :
    gpt_leadai env1 task = gpt_leadai env2 task ∧
    (∀ calls resp, gpt_leadai env1 task = Except.ok (calls, resp) →
      resp = ok "LEADAI" task []) := by
  constructor
  · rfl
  · intro calls resp h
    rcases hl : task.data.lookup "lead" with _ | v
    · simp [gpt_leadai, hl] at h
      exact h.2.symm
    · cases hs : subscript v "email" with
      | error er => simp [gpt_leadai, hl, hs] at h
      | ok e =>
        simp [gpt_leadai, hl, hs] at h
        exact h.2.symm

/-- Witness for C7: a concrete lead task under the unset-credential
environment (adapter returns skipped) and under a set-credential environment
(adapter returns ok) yields the same result, whose response part is the
uniform envelope. -/
theorem C7_witness :
    gpt_leadai ⟨"", ""⟩
        ⟨"bff", none, "lead.capture", [("lead", Value.obj [("email", Value.str "a@b.com")])]⟩ =
      gpt_leadai ⟨"OC", "SY"⟩
        ⟨"bff", none, "lead.capture", [("lead", Value.obj [("email", Value.str "a@b.com")])]⟩ ∧
    ok "LEADAI"
        ⟨"bff", none, "lead.capture", [("lead", Value.obj [("email", Value.str "a@b.com")])]⟩ [] =
      ok "LEADAI"
        ⟨"bff", none, "lead.capture", [("lead", Value.obj [("email", Value.str "a@b.com")])]⟩ [] :=
  ⟨(C7_leadai_response_frame ⟨"", ""⟩ ⟨"OC", "SY"⟩
      ⟨"bff", none, "lead.capture", [("lead", Value.obj [("email", Value.str "a@b.com")])]⟩).1,
   (C7_leadai_response_frame ⟨"", ""⟩ ⟨"OC", "SY"⟩
      ⟨"bff", none, "lead.capture", [("lead", Value.obj [("email", Value.str "a@b.com")])]⟩).2
     [AdapterCall.crm ⟨Value.str "a@b.com", none, none, ["lead_generated"], none⟩]
     (ok "LEADAI"
       ⟨"bff", none, "lead.capture", [("lead", Value.obj [("email", Value.str "a@b.com")])]⟩ [])
     rfl⟩

/-- C8: every GET /auth/callback request whose query string lacks the code
parameter or carries an empty one raises 400 with the specific message; the
error result means no TokenRequest is ever built, so no outbound call to the
token endpoint is made. -/
theorem C8_missing_code_400 (clientId clientSecret redirectUri : String)
    (code : Option String) (h : code = none ∨ code = some "") :
    auth_callback clientId clientSecret redirectUri code =
      Except.error ⟨400, "Missing authorization code"⟩ := by
  rcases h with h | h <;> subst h <;> rfl

/-- Witness for C8 at a request with no code parameter. -/
theorem C8_witness :
    ((none : Option String) = none ∨ (none : Option String) = some "") ∧
    auth_callback "cid" "csecret" "http://cb" none =
      Except.error ⟨400, "Missing authorization code"⟩ :=
  ⟨Or.inl rfl, C8_missing_code_400 "cid" "csecret" "http://cb" none (Or.inl rfl)⟩

/-- C9: the per-route gate is redundant under the middleware: whenever the
middleware forwards a request on a non-bypassed path to its handler, the
`require_key` check inside that handler admits the same request, so its 401
branch is unreachable and the composed double gate behaves exactly like the
middleware alone. -/
theorem C9_require_key_redundant (allowUnauth : Bool) (secret path : String)
    (header : Option String) (hp : path ∉ bypassPaths)
    (hfwd : ∀ next : Unit → HttpResponse,
      runMiddleware allowUnauth secret path header next = next ()) :
    require_key allowUnauth secret header = Except.ok () := by
  cases allowUnauth with
  | true => simp [require_key]
  | false =>
    by_cases hne : pyStrNe header secret = true
    · exfalso
      have h := hfwd (fun _ => HttpResponse.json 200 [])
      simp [runMiddleware, hp, hne] at h
    · simp [require_key, hne]

/-- Witness for C9 at a concrete admitted request (enforcement off). -/
theorem C9_witness :
    ("/gpt/ava" ∉ bypassPaths) ∧ require_key true "secret123" none = Except.ok () :=
  ⟨by decide,
   C9_require_key_redundant true "secret123" "/gpt/ava" none (by decide) (fun next => rfl)⟩

/-- C10: for every admitted leadai task whose data carries a lead entry that
is not a mapping with an email key, evaluating task.data["lead"]["email"]
raises an unhandled KeyError or TypeError: the handler neither skips the CRM
call gracefully nor returns a client error. -/
theorem C10_leadai_bad_lead_raises (env : Env) (task : TaskPayload) (v : Value)
    (hl : task.data.lookup "lead" = some v) (hn : leadEmail task = none) :
    gpt_leadai env task = Except.error (PyErr.keyError "email") ∨
    gpt_leadai env task = Except.error PyErr.typeError := by
  cases v with
  | obj m =>
    have hm : m.lookup "email" = none := by simpa [leadEmail, hl] using hn
    left
    simp [gpt_leadai, hl, subscript, hm]
  | null =>
    right
    simp [gpt_leadai, hl, subscript]
  | bool b =>
    right
    simp [gpt_leadai, hl, subscript]
  | num n =>
    right
    simp [gpt_leadai, hl, subscript]
  | str s =>
    right
    simp [gpt_leadai, hl, subscript]
  | arr l =>
    right
    simp [gpt_leadai, hl, subscript]

/-- Witness for C10 at a concrete task whose lead entry is null. -/
theorem C10_witness :
    gpt_leadai ⟨"", ""⟩ ⟨"bff", none, "lead.capture", [("lead", Value.null)]⟩ =
      Except.error (PyErr.keyError "email") ∨
    gpt_leadai ⟨"", ""⟩ ⟨"bff", none, "lead.capture", [("lead", Value.null)]⟩ =
      Except.error PyErr.typeError :=
  C10_leadai_bad_lead_raises ⟨"", ""⟩ ⟨"bff", none, "lead.capture", [("lead", Value.null)]⟩
    Value.null rfl rfl

end BFF
